import Mathlib

/-!
Shallow embedding of the `templheroicons` Go library (icon rendering with a
builder pipeline, an attribute sanitizer and a lazily populated body cache).

The repository carries two generations of the renderer:
* `icon.go` / `icon_config.go`: an `Icon` with `Stroke`/`StrokeWidth`/`Fill`
  fields, rendered by the method `Icon.String`, with a `sync.Once` guarded
  body cache (`getIconBody` in `icon.go`).
* `helpers.go` together with the unnamed parts: an `Icon` with a single
  `Color` field, rendered by `makeSVGTag` using `getTypeAttributes`, with a
  mutex guarded cache.

Both share the sanitizer (`sanitizeAttribute`, `addAttributesToSVG`) and the
view-box helpers.  Go strings are modelled as Lean `String`; byte-wise Go
string comparison coincides with the code-point comparison used here on the
ASCII data the library handles.  Maps (`templ.Attributes`) are modelled as
association lists whose key lists are duplicate-free, matching Go map
semantics.
-/

namespace Templheroicons

/-- A value in a `templ.Attributes` mapping: either a string or some
non-string value (which `addAttributesToSVG` skips). -/
inductive AttrValue
  | str (s : String)
  | nonString
deriving DecidableEq

/-- A `templ.Attributes` map, as an association list (keys unique). -/
abbrev Attrs := List (String × AttrValue)

/-- Go `strings.ToLower`, per character (the library only compares against
ASCII markers). -/
def toLowerStr (s : String) : String := ⟨s.data.map Char.toLower⟩

/-- Go `strings.Contains`: `pat` occurs as a contiguous substring of `s`. -/
def containsSubstring (s pat : String) : Bool :=
  s.data.tails.any (fun t => pat.data.isPrefixOf t)

/-- One step of Go `html.EscapeString`: the five escaped characters
`&` (38), `'` (39), `<` (60), `>` (62), `"` (34). -/
def escapeChar (c : Char) : List Char :=
  if c.toNat = 38 then "&amp;".data
  else if c.toNat = 39 then "&#39;".data
  else if c.toNat = 60 then "&lt;".data
  else if c.toNat = 62 then "&gt;".data
  else if c.toNat = 34 then "&#34;".data
  else [c]

/-- Go `html.EscapeString`. -/
def escapeString (s : String) : String := ⟨(s.data.map escapeChar).flatten⟩

/-- The event-attribute allowlist of `sanitizeAttribute`
(`helpers.go`, also duplicated in `icon.go`). -/
def allowedEventAttributes : List String := ["onclick", "onchange", "onhover"]

/-- The unsafe-value test of `sanitizeAttribute`: the lower-cased value
contains an embedded script tag or a script-URI scheme marker. -/
def hasUnsafeValue (value : String) : Bool :=
  containsSubstring (toLowerStr value) "<script>" ||
    containsSubstring (toLowerStr value) "javascript:"

/-- `sanitizeAttribute` from `helpers.go`: event attributes with an unsafe
value are rejected (`none`); every other pair is HTML-escaped and kept. -/
def sanitizeAttribute (key value : String) : Option (String × String) :=
  if allowedEventAttributes.contains key && hasUnsafeValue value then none
  else some (escapeString key, escapeString value)

/-- `reservedSVGAttributes` from `helpers.go`: keys the renderer always
controls. -/
def reservedSVGAttributes : List String :=
  ["xmlns", "viewBox", "width", "height", "stroke-width", "stroke", "fill"]

/-- Strict lexicographic order on character lists, as Go compares strings
(byte-wise; identical on the ASCII keys involved). -/
def charListLt : List Char → List Char → Bool
  | [], [] => false
  | [], _ :: _ => true
  | _ :: _, [] => false
  | a :: as, b :: bs =>
    if a.toNat < b.toNat then true
    else if b.toNat < a.toNat then false
    else charListLt as bs

/-- `a ≤ b` on strings, used to model `sort.Strings`. -/
def strLe (a b : String) : Bool := !(charListLt b.data a.data)

/-- Insertion into a sorted key list. -/
def insertKey (k : String) : List String → List String
  | [] => [k]
  | x :: xs => if strLe k x then k :: x :: xs else x :: insertKey k xs

/-- `sort.Strings` on the key list (insertion sort; the keys of a Go map are
unique, so stability is irrelevant). -/
def sortKeys : List String → List String
  | [] => []
  | x :: xs => insertKey x (sortKeys xs)

/-- The body of the loop of `addAttributesToSVG` for a single key: skip
non-string values, skip reserved keys, then sanitize; a kept attribute is
emitted as `· key="value"` with a leading space. -/
def emitAttr (attrs : Attrs) (key : String) : String :=
  match List.lookup key attrs with
  | some (AttrValue.str value) =>
    if reservedSVGAttributes.contains key then ""
    else
      match sanitizeAttribute key value with
      | some (ek, ev) => " " ++ ek ++ "=\"" ++ ev ++ "\""
      | none => ""
  | _ => ""

/-- Concatenation of a list of strings. -/
def joinAll (l : List String) : String := ⟨(l.map String.data).flatten⟩

/-- `addAttributesToSVG` from `helpers.go` (duplicated in `icon.go`): the
suffix appended to the opening `<svg>` tag for the user attributes, emitted
in sorted key order. -/
def addAttributesToSVG (attrs : Attrs) : String :=
  if attrs.isEmpty then ""
  else joinAll ((sortKeys (attrs.map Prod.fst)).map (emitAttr attrs))

/-- `getViewBoxDimensions` from `helpers.go` (the identical `getViewBox` in
`icon.go` is an alias below): the canonical coordinate-space dimension per
variant. -/
def getViewBoxDimensions (iconType : String) : String :=
  if iconType = "Mini" then "20"
  else if iconType = "Micro" then "16"
  else "24"

/-- `getViewBox` from `icon.go`, byte-for-byte the same switch as
`getViewBoxDimensions`. -/
def getViewBox (iconType : String) : String := getViewBoxDimensions iconType

/-- `getTypeAttributes` from `helpers.go`: the default visual attribute
string per variant; unknown variants get the empty string. -/
def getTypeAttributes (iconType : String) : String :=
  if iconType = "Outline" then
    " fill=\"none\" stroke-width=\"1.5\" stroke=\"currentColor\""
  else if iconType = "Solid" || iconType = "Micro" || iconType = "Mini" then
    " fill=\"currentColor\""
  else ""

/-- The `Icon` struct of `icon.go` (the newer generation, with the
`Stroke`/`StrokeWidth`/`Fill` triple).  `body` is the cached body field. -/
structure Icon where
  name : String
  type : String
  size : String
  stroke : String
  strokeWidth : String
  fill : String
  attrs : Attrs
  body : String
deriving DecidableEq

/-- `Icon.clone` from `icon.go`: a field-for-field copy (in this value
model the copy is the value itself). -/
def Icon.clone (i : Icon) : Icon := i

/-- `Icon.SetSize` from `icon.go`: clone with `Size = strconv.Itoa(size)`. -/
def Icon.SetSize (i : Icon) (size : Int) : Icon :=
  { i.clone with size := toString size }

/-- `Icon.SetStroke` from `icon.go`. -/
def Icon.SetStroke (i : Icon) (value : String) : Icon :=
  { i.clone with stroke := value }

/-- `Icon.SetStrokeWidth` from `icon.go`. -/
def Icon.SetStrokeWidth (i : Icon) (value : String) : Icon :=
  { i.clone with strokeWidth := value }

/-- `Icon.SetFill` from `icon.go`. -/
def Icon.SetFill (i : Icon) (value : String) : Icon :=
  { i.clone with fill := value }

/-- `Icon.SetAttrs` from `icon.go`. -/
def Icon.SetAttrs (i : Icon) (attrs : Attrs) : Icon :=
  { i.clone with attrs := attrs }

/-- First statement of `Icon.ensureDefaults` (`icon.go`): default the fill
per variant (`"none"` for Outline, `"currentColor"` otherwise). -/
def ensureFill (i : Icon) : Icon :=
  if i.fill = "" then
    { i with fill := if i.type = "Outline" then "none" else "currentColor" }
  else i

/-- Second statement of `Icon.ensureDefaults`: default the stroke. -/
def ensureStroke (i : Icon) : Icon :=
  if i.stroke = "" then { i with stroke := "currentColor" } else i

/-- Third statement of `Icon.ensureDefaults`: default the stroke width. -/
def ensureStrokeWidth (i : Icon) : Icon :=
  if i.strokeWidth = "" then { i with strokeWidth := "1.5" } else i

/-- `Icon.ensureDefaults` from `icon.go`: the three defaulting statements in
source order. -/
def Icon.ensureDefaults (i : Icon) : Icon :=
  ensureStrokeWidth (ensureStroke (ensureFill i))

/-- The type-dependent visual attribute segment of `Icon.String`
(`icon.go` lines 132–139), applied after `ensureDefaults`: the Outline
branch hard-codes `fill="none"`, the Solid/Mini/Micro branch emits the
`Fill` field, and the default branch emits all three fields. -/
def typeSwitchAttrs (i : Icon) : String :=
  if i.type = "Outline" then
    " fill=\"none\" stroke-width=\"" ++ i.strokeWidth ++ "\" stroke=\"" ++
      i.stroke ++ "\""
  else if i.type = "Solid" || i.type = "Mini" || i.type = "Micro" then
    " fill=\"" ++ i.fill ++ "\""
  else
    " fill=\"" ++ i.fill ++ "\" stroke-width=\"" ++ i.strokeWidth ++
      "\" stroke=\"" ++ i.stroke ++ "\""

/-- Everything `Icon.String` writes between the second size substitution
and the end of the opening tag: the `viewBox` attribute, the type-dependent
visual attributes and the sanitized user attributes, then `>`. -/
def svgTagRest (i : Icon) : String :=
  "\" viewBox=\"0 0 " ++ getViewBox i.type ++ " " ++ getViewBox i.type ++
    "\"" ++ typeSwitchAttrs i ++ addAttributesToSVG i.attrs ++ ">"

/-- The opening tag, body and closing tag that `Icon.String` builds once the
body string `b` is available (one flat concatenation in the source; grouped
here after the two size substitutions). -/
def svgOutput (i : Icon) (b : String) : String :=
  "<svg xmlns=\"http://www.w3.org/2000/svg\" width=\"" ++ i.size ++
    "\" height=\"" ++ i.size ++ svgTagRest i ++ b ++ "</svg>"

/-- The bundled dataset as already decoded: icon name to body string
(the `icons → name → body` mapping of `data/heroicons_cache.json`). -/
abbrev Dataset := List (String × String)

/-- The `NotFound` message of `getIconBody`: `icon '<name>' not found`. -/
def notFoundMsg (name : String) : String :=
  "icon '" ++ name ++ "' not found"

/-- The diagnostic fragment `Icon.String` (and `errorSVGComment` in
`helpers.go`) produces from an error message. -/
def errorSVGComment (msg : String) : String :=
  "<!-- Error: " ++ msg ++ " -->"

/-- `Icon.String` from `icon.go`, as a state-passing function: the method
mutates its receiver (`ensureDefaults` writes the default fields and a
resolved body is cached in `body`), so it returns the output string together
with the updated icon.  `ds` is the decoded dataset that `getIconBody`
consults when the body field is empty. -/
def iconStringS (ds : Dataset) (i : Icon) : String × Icon :=
  if i.ensureDefaults.body = "" then
    match List.lookup i.ensureDefaults.name ds with
    | none =>
      (errorSVGComment (notFoundMsg i.ensureDefaults.name), i.ensureDefaults)
    | some b =>
      (svgOutput { i.ensureDefaults with body := b } b,
        { i.ensureDefaults with body := b })
  else (svgOutput i.ensureDefaults i.ensureDefaults.body, i.ensureDefaults)

/-- The rendered string of `Icon.String` (first component of
`iconStringS`). -/
def iconString (ds : Dataset) (i : Icon) : String := (iconStringS ds i).1

/-- The `Icon` struct of the older generation (unnamed part files): a single
`Color` field instead of the stroke/fill triple. -/
structure IconC where
  name : String
  type : String
  size : String
  color : String
  attrs : Attrs
  body : String
deriving DecidableEq

/-- Everything `makeSVGTag` writes between the second size substitution and
the end of the opening tag: the `viewBox`, the `getTypeAttributes` segment,
the optional `color` attribute and the sanitized user attributes, then
`>`. -/
def makeSVGTagRest (icon : IconC) : String :=
  "\" viewBox=\"0 0 " ++ getViewBoxDimensions icon.type ++ " " ++
    getViewBoxDimensions icon.type ++ "\"" ++ getTypeAttributes icon.type ++
    (if icon.color = "" then "" else " color=\"" ++ icon.color ++ "\"") ++
    addAttributesToSVG icon.attrs ++ ">"

/-- `makeSVGTag` from the unnamed part files: resolves the body (returning
`errorSVGComment` on failure), then emits the opening tag with
`getViewBoxDimensions` and `getTypeAttributes`, an optional `color`
attribute, the sanitized user attributes, the body and the closing tag
(one flat concatenation in the source; grouped here after the two size
substitutions). -/
def makeSVGTag (ds : Dataset) (icon : IconC) : String :=
  match
    (if icon.body = "" then List.lookup icon.name ds else some icon.body) with
  | none => errorSVGComment (notFoundMsg icon.name)
  | some b =>
    "<svg xmlns=\"http://www.w3.org/2000/svg\" width=\"" ++ icon.size ++
      "\" height=\"" ++ icon.size ++ makeSVGTagRest icon ++ b ++ "</svg>"

/-!
### Builder model with an explicit attribute heap

`ConfigureIcon` in `icon_config.go` copies the icon struct into the builder
(`icon: *icon`); the `Attrs` field of that copy is a Go map reference, so
the template and the builder initially share one map.  To make mutation
through that shared reference expressible, attribute maps live in an
explicit heap and an icon record holds an index into it.  Builder setters
write fields of the builder's record only; `SetAttrs` rebinds the builder's
map reference to the caller-supplied map (modelled as a fresh allocation)
and never writes entries of the shared map.  The record also carries the
`Color` field so that the older generation's `SetColor` is covered.
-/

/-- A heap of attribute maps, addressed by list index. -/
abbrev AttrsHeap := List Attrs

/-- An icon record whose `attrsRef` is a reference into an `AttrsHeap`. -/
structure IconRef where
  name : String
  type : String
  size : String
  stroke : String
  strokeWidth : String
  fill : String
  color : String
  attrsRef : Nat
  body : String
deriving DecidableEq

/-- Dereference an attribute map. -/
def heapAttrs (heap : AttrsHeap) (r : Nat) : Attrs := heap.getD r []

/-- The state of one `IconBuilder` chain: the heap, the untouched template
record the caller passed to `ConfigureIcon`, and the builder's own record
`b.icon`. -/
structure BuilderState where
  heap : AttrsHeap
  template : IconRef
  builder : IconRef
deriving DecidableEq

/-- `ConfigureIcon` from `icon_config.go`: the builder holds a struct copy
of the template (`icon: *icon`); the copy shares the template's attribute
map reference. -/
def ConfigureIcon (heap : AttrsHeap) (template : IconRef) : BuilderState :=
  { heap := heap, template := template, builder := template }

/-- One builder setter call (`icon_config.go` `SetSize`/`SetStroke`/
`SetStrokeWidth`/`SetFill`/`SetAttrs`, plus the older generation's
`SetColor`). -/
inductive BuilderOp
  | setSize (n : Int)
  | setStroke (v : String)
  | setStrokeWidth (v : String)
  | setFill (v : String)
  | setColor (v : String)
  | setAttrs (m : Attrs)
deriving DecidableEq

/-- Apply one setter: each assigns a field of `b.icon`; `setAttrs` allocates
the caller's map and rebinds the builder's reference, never writing the map
the template shares. -/
def applyOp (s : BuilderState) : BuilderOp → BuilderState
  | .setSize n =>
    { s with builder := { s.builder with size := toString n } }
  | .setStroke v =>
    { s with builder := { s.builder with stroke := v } }
  | .setStrokeWidth v =>
    { s with builder := { s.builder with strokeWidth := v } }
  | .setFill v =>
    { s with builder := { s.builder with fill := v } }
  | .setColor v =>
    { s with builder := { s.builder with color := v } }
  | .setAttrs m =>
    { heap := s.heap ++ [m], template := s.template,
      builder := { s.builder with attrsRef := s.heap.length } }

/-- Apply a chain of setters in order. -/
def applyOps (s : BuilderState) (ops : List BuilderOp) : BuilderState :=
  ops.foldl applyOp s

/-- `IconBuilder.Build` from `icon_config.go` returns `&b.icon`, a pointer
into the builder; `readBuilt s` is the contents of the record that pointer
refers to, observed in state `s`.  Reading it after further setter calls
therefore reads the builder's then-current record. -/
def readBuilt (s : BuilderState) : IconRef := s.builder

/-- View an `IconRef` as an `icon.go` `Icon` (dereferencing its attribute
map; the older generation's `color` field has no `icon.go` counterpart). -/
def iconOfRef (heap : AttrsHeap) (r : IconRef) : Icon :=
  { name := r.name, type := r.type, size := r.size, stroke := r.stroke,
    strokeWidth := r.strokeWidth, fill := r.fill,
    attrs := heapAttrs heap r.attrsRef, body := r.body }

/-!
### Body cache model (`icon.go` `getIconBody` with `sync.Once`)

The raw embedded blob either decodes to a name-to-body mapping (`some m`)
or is structurally invalid (`none`).  `CacheState` records whether the
one-time initializer has fired, how many times the blob was decoded, and
the `iconData` mapping.  `loadError` in the Go code is observed only by the
call during which the decode ran, which the model mirrors.
-/

/-- The embedded JSON source as seen by the parser. -/
structure DataSource where
  raw : Option Dataset

/-- The process-wide cache state of `icon.go`: `parsed` is the `sync.Once`
flag, `decodes` counts executions of the decode closure, `iconData` is the
cache mapping. -/
structure CacheState where
  parsed : Bool
  decodes : Nat
  iconData : Dataset
deriving DecidableEq

/-- The cache state at process start. -/
def initialCache : CacheState := { parsed := false, decodes := 0, iconData := [] }

/-- `getIconBody` from `icon.go`: run the `sync.Once` decode if it has not
fired, then answer from `iconData`.  Returns the result and the updated
cache state. -/
def getIconBodyS (src : DataSource) (st : CacheState) (name : String) :
    Except String String × CacheState :=
  if st.parsed then
    match List.lookup name st.iconData with
    | some b => (.ok b, st)
    | none => (.error (notFoundMsg name), st)
  else
    match src.raw with
    | none =>
      (.error "failed to parse heroicons JSON",
        { parsed := true, decodes := st.decodes + 1, iconData := [] })
    | some m =>
      let st2 : CacheState :=
        { parsed := true, decodes := st.decodes + 1, iconData := m }
      match List.lookup name m with
      | some b => (.ok b, st2)
      | none => (.error (notFoundMsg name), st2)

/-- The cache state after a sequence of `getIconBody` calls. -/
def runCalls (src : DataSource) (st : CacheState) (names : List String) :
    CacheState :=
  names.foldl (fun s n => (getIconBodyS src s n).2) st

/-- The `"moon"` Outline template of the spec scenarios, with its body
already resolved to `<path d="M1"/>`. -/
def moonTemplate : Icon :=
  { name := "moon"
    type := "Outline"
    size := "24"
    stroke := ""
    strokeWidth := ""
    fill := ""
    attrs := []
    body := "<path d=\"M1\"/>" }

/-- The `"moon"` template as a heap-referencing record (its attribute map
is heap cell 0). -/
def moonRef : IconRef :=
  { name := "moon"
    type := "Outline"
    size := "24"
    stroke := ""
    strokeWidth := ""
    fill := ""
    color := ""
    attrsRef := 0
    body := "<path d=\"M1\"/>" }

/-- A one-cell heap holding the template's (empty) attribute map. -/
def demoHeap : AttrsHeap := [[]]

/-- A chain exercising every builder setter. -/
def demoOps : List BuilderOp :=
  [.setSize 32, .setStroke "#f00", .setStrokeWidth "2", .setFill "red",
    .setColor "#22d3ee", .setAttrs [("aria-hidden", .str "true")]]

/-- A one-icon dataset used by concrete scenarios. -/
def sampleDataset : Dataset := [("moon", "<path d=\"M1\"/>")]

/-- A record whose name is absent from every sample dataset and whose body
is unresolved. -/
def missingIcon : Icon :=
  { name := "nonexistent"
    type := "Outline"
    size := "24"
    stroke := ""
    strokeWidth := ""
    fill := ""
    attrs := []
    body := "" }

/-- The unknown-variant record of the repository's fallback tests, for the
`icon.go` renderer. -/
def unknownIcon : Icon :=
  { name := "unknown-icon"
    type := "Unknown"
    size := "24"
    stroke := ""
    strokeWidth := ""
    fill := ""
    attrs := []
    body := "<circle cx=\"12\" cy=\"12\" r=\"10\"/>" }

/-- The unknown-variant record for the `makeSVGTag` renderer. -/
def unknownIconC : IconC :=
  { name := "unknown-icon"
    type := "Unknown"
    size := "24"
    color := ""
    attrs := []
    body := "<circle cx=\"12\" cy=\"12\" r=\"10\"/>" }

/-!
### Helper lemmas
-/

/-- For an Outline icon whose stroke fields hold the default values and
whose attribute map is empty, the tail of the opening tag is the fixed
Outline default segment. -/
lemma svgTagRest_outline (i : Icon) (h1 : i.type = "Outline")
    (h2 : i.strokeWidth = "1.5") (h3 : i.stroke = "currentColor")
    (h4 : i.attrs = []) :
    svgTagRest i =
      "\" viewBox=\"0 0 24 24\" fill=\"none\" stroke-width=\"1.5\" stroke=\"currentColor\">" := by
  simp [svgTagRest, typeSwitchAttrs, getViewBox, getViewBoxDimensions,
    addAttributesToSVG, h1, h2, h3, h4]

lemma joinAll_nil : joinAll [] = "" := rfl

lemma joinAll_cons (a : String) (l : List String) :
    joinAll (a :: l) = a ++ joinAll l := rfl

lemma joinAll_insertKey (f : String → String) (k : String) (hk : f k = "") :
    ∀ l : List String, joinAll ((insertKey k l).map f) = joinAll (l.map f)
  | [] => by simp [insertKey, joinAll_cons, joinAll_nil, hk]
  | x :: xs => by
    by_cases h : strLe k x = true
    · simp [insertKey, h, joinAll_cons, hk]
    · rw [insertKey, if_neg h, List.map_cons, joinAll_cons,
        joinAll_insertKey f k hk xs, List.map_cons, joinAll_cons]

lemma mem_insertKey {x k : String} {l : List String} :
    x ∈ insertKey k l → x = k ∨ x ∈ l := by
  induction l with
  | nil => simp [insertKey]
  | cons a as ih =>
    by_cases h : strLe k a = true
    · simp [insertKey, h]
    · rw [insertKey, if_neg h]
      intro hx
      rcases List.mem_cons.mp hx with h1 | h2
      · exact Or.inr (List.mem_cons.mpr (Or.inl h1))
      · rcases ih h2 with h3 | h4
        · exact Or.inl h3
        · exact Or.inr (List.mem_cons.mpr (Or.inr h4))

lemma mem_sortKeys {x : String} {l : List String} :
    x ∈ sortKeys l → x ∈ l := by
  induction l with
  | nil => simp [sortKeys]
  | cons a as ih =>
    intro hx
    rcases mem_insertKey hx with h1 | h2
    · simp [h1]
    · simp [ih h2]

lemma lookup_cons_ne {k k' : String} {v : AttrValue} {attrs : Attrs}
    (h : k' ≠ k) :
    List.lookup k' ((k, v) :: attrs) = List.lookup k' attrs := by
  have hb : (k' == k) = false := by
    simp [beq_iff_eq, h]
  simp [List.lookup, hb]

/-- `addAttributesToSVG` is the join over the sorted key list even in the
empty case. -/
lemma addAttributesToSVG_eq (attrs : Attrs) :
    addAttributesToSVG attrs =
      joinAll ((sortKeys (attrs.map Prod.fst)).map (emitAttr attrs)) := by
  cases attrs <;> rfl

/-- A key whose emission is empty and which does not occur in the rest of
the map contributes nothing to the output. -/
lemma addAttributesToSVG_skip (k : String) (v : AttrValue) (attrs : Attrs)
    (hk : k ∉ attrs.map Prod.fst)
    (he : emitAttr ((k, v) :: attrs) k = "") :
    addAttributesToSVG ((k, v) :: attrs) = addAttributesToSVG attrs := by
  rw [addAttributesToSVG_eq, addAttributesToSVG_eq]
  have hmap : ∀ x ∈ sortKeys (attrs.map Prod.fst),
      emitAttr ((k, v) :: attrs) x = emitAttr attrs x := by
    intro x hx
    have hxk : x ≠ k := by
      intro h
      exact hk (h ▸ mem_sortKeys hx)
    simp [emitAttr, lookup_cons_ne hxk]
  calc joinAll ((sortKeys (((k, v) :: attrs).map Prod.fst)).map
          (emitAttr ((k, v) :: attrs)))
      = joinAll ((insertKey k (sortKeys (attrs.map Prod.fst))).map
          (emitAttr ((k, v) :: attrs))) := by
        simp [sortKeys]
    _ = joinAll ((sortKeys (attrs.map Prod.fst)).map
          (emitAttr ((k, v) :: attrs))) :=
        joinAll_insertKey _ k he _
    _ = joinAll ((sortKeys (attrs.map Prod.fst)).map (emitAttr attrs)) := by
        rw [List.map_congr_left hmap]

lemma ensureDefaults_name (i : Icon) : i.ensureDefaults.name = i.name := by
  unfold Icon.ensureDefaults ensureStrokeWidth ensureStroke ensureFill
  repeat' split
  all_goals rfl

lemma ensureDefaults_type (i : Icon) : i.ensureDefaults.type = i.type := by
  unfold Icon.ensureDefaults ensureStrokeWidth ensureStroke ensureFill
  repeat' split
  all_goals rfl

lemma ensureDefaults_size (i : Icon) : i.ensureDefaults.size = i.size := by
  unfold Icon.ensureDefaults ensureStrokeWidth ensureStroke ensureFill
  repeat' split
  all_goals rfl

lemma ensureDefaults_attrs (i : Icon) : i.ensureDefaults.attrs = i.attrs := by
  unfold Icon.ensureDefaults ensureStrokeWidth ensureStroke ensureFill
  repeat' split
  all_goals rfl

lemma ensureDefaults_body (i : Icon) : i.ensureDefaults.body = i.body := by
  unfold Icon.ensureDefaults ensureStrokeWidth ensureStroke ensureFill
  repeat' split
  all_goals rfl

/-- A cached-body render decomposed into its exact segments: prefix with the
size substituted twice, the `viewBox` with the variant's dimension twice,
the type-dependent visual attributes of the defaulted record, the sanitized
user attributes, the body and the closing tag. -/
lemma iconString_decomp (ds : Dataset) (i : Icon) (hb : i.body ≠ "") :
    iconString ds i =
      "<svg xmlns=\"http://www.w3.org/2000/svg\" width=\"" ++ i.size ++
        "\" height=\"" ++ i.size ++ "\" viewBox=\"0 0 " ++
        getViewBox i.type ++ " " ++ getViewBox i.type ++ "\"" ++
        typeSwitchAttrs i.ensureDefaults ++ addAttributesToSVG i.attrs ++
        ">" ++ i.body ++ "</svg>" := by
  have hb2 : i.ensureDefaults.body = i.body := ensureDefaults_body i
  unfold iconString iconStringS
  rw [hb2, if_neg hb]
  unfold svgOutput svgTagRest
  rw [ensureDefaults_size, ensureDefaults_type, ensureDefaults_attrs]
  dsimp only
  simp only [String.append_assoc]

/-!
### Claims
-/

/-- Claim C1: an unconfigured Outline record (empty stroke, stroke-width and
fill fields, no extra attributes) with a resolved body renders as the fixed
namespace, width and height equal to the size, `viewBox="0 0 24 24"`, the
Outline defaults `fill="none" stroke-width="1.5" stroke="currentColor"` in
that order, followed by the opaque body and the closing tag. -/
theorem outline_default_render (ds : Dataset) (nm sz bd : String)
    (hb : bd ≠ "") :
    iconString ds
      { name := nm
        type := "Outline"
        size := sz
        stroke := ""
        strokeWidth := ""
        fill := ""
        attrs := []
        body := bd } =
      "<svg xmlns=\"http://www.w3.org/2000/svg\" width=\"" ++ sz ++
        "\" height=\"" ++ sz ++
        "\" viewBox=\"0 0 24 24\" fill=\"none\" stroke-width=\"1.5\" stroke=\"currentColor\">" ++
        bd ++ "</svg>" := by
  simp [iconString, iconStringS, Icon.ensureDefaults, ensureFill,
    ensureStroke, ensureStrokeWidth, svgOutput, hb, svgTagRest_outline]

/-- Claim C1 witness: the `"moon"` record of the spec scenario renders to
exactly the string of the spec. -/
theorem outline_default_render_witness :
    iconString []
      { name := "moon"
        type := "Outline"
        size := "24"
        stroke := ""
        strokeWidth := ""
        fill := ""
        attrs := []
        body := "<path d=\"M1\"/>" } =
      "<svg xmlns=\"http://www.w3.org/2000/svg\" width=\"24\" height=\"24\" viewBox=\"0 0 24 24\" fill=\"none\" stroke-width=\"1.5\" stroke=\"currentColor\"><path d=\"M1\"/></svg>" := by
  have h := outline_default_render [] "moon" "24" "<path d=\"M1\"/>"
    (by decide)
  exact h.trans (by decide)

/-- Claim C2: configuring any record with `SetSize(32)` renders with
`width="32" height="32"` while the `viewBox` keeps the variant's canonical
dimension (a function of the variant only: 20 for Mini, 16 for Micro, 24
otherwise), independent of the overridable size. -/
theorem setSize_preserves_viewBox (ds : Dataset) (i : Icon)
    (hb : i.body ≠ "") :
    (∃ rest,
        iconString ds (i.SetSize 32) =
          "<svg xmlns=\"http://www.w3.org/2000/svg\" width=\"32\" height=\"32\" viewBox=\"0 0 " ++
            getViewBoxDimensions i.type ++ " " ++
            getViewBoxDimensions i.type ++ "\"" ++ rest) ∧
      (i.SetSize 32).type = i.type ∧
      getViewBoxDimensions i.type =
        (if i.type = "Mini" then "20"
         else if i.type = "Micro" then "16" else "24") := by
  refine ⟨⟨typeSwitchAttrs (i.SetSize 32).ensureDefaults ++
      addAttributesToSVG i.attrs ++ ">" ++ i.body ++ "</svg>", ?_⟩, rfl, rfl⟩
  have hb32 : (i.SetSize 32).body ≠ "" := hb
  rw [iconString_decomp ds _ hb32]
  have hsz : (i.SetSize 32).size = "32" := rfl
  have hty : (i.SetSize 32).type = i.type := rfl
  have hat : (i.SetSize 32).attrs = i.attrs := rfl
  have hbd : (i.SetSize 32).body = i.body := rfl
  rw [hsz, hty, hat, hbd]
  rw [show ("<svg xmlns=\"http://www.w3.org/2000/svg\" width=\"32\" height=\"32\" viewBox=\"0 0 " : String) =
    "<svg xmlns=\"http://www.w3.org/2000/svg\" width=\"" ++ "32" ++
      "\" height=\"" ++ "32" ++ "\" viewBox=\"0 0 " from rfl]
  simp only [getViewBox, String.append_assoc]

/-- Claim C2 witness: the `"moon"` record resized to 32 renders with width
and height 32 and an unchanged `viewBox="0 0 24 24"`. -/
theorem setSize_preserves_viewBox_witness :
    (∃ rest,
        iconString [] (moonTemplate.SetSize 32) =
          "<svg xmlns=\"http://www.w3.org/2000/svg\" width=\"32\" height=\"32\" viewBox=\"0 0 " ++
            getViewBoxDimensions moonTemplate.type ++ " " ++
            getViewBoxDimensions moonTemplate.type ++ "\"" ++ rest) ∧
      (moonTemplate.SetSize 32).type = moonTemplate.type ∧
      getViewBoxDimensions moonTemplate.type =
        (if moonTemplate.type = "Mini" then "20"
         else if moonTemplate.type = "Micro" then "16" else "24") :=
  setSize_preserves_viewBox [] moonTemplate (by decide)

lemma applyOp_template (s : BuilderState) (op : BuilderOp) :
    (applyOp s op).template = s.template := by
  cases op <;> rfl

lemma applyOp_heap_extend (s : BuilderState) (op : BuilderOp) :
    ∃ ext, (applyOp s op).heap = s.heap ++ ext := by
  cases op with
  | setAttrs m => exact ⟨[m], rfl⟩
  | setSize n => exact ⟨[], (List.append_nil _).symm⟩
  | setStroke v => exact ⟨[], (List.append_nil _).symm⟩
  | setStrokeWidth v => exact ⟨[], (List.append_nil _).symm⟩
  | setFill v => exact ⟨[], (List.append_nil _).symm⟩
  | setColor v => exact ⟨[], (List.append_nil _).symm⟩

lemma applyOps_template (ops : List BuilderOp) :
    ∀ s : BuilderState, (applyOps s ops).template = s.template := by
  induction ops with
  | nil => intro s; rfl
  | cons op rest ih =>
    intro s
    calc (applyOps s (op :: rest)).template
        = (applyOps (applyOp s op) rest).template := rfl
      _ = (applyOp s op).template := ih _
      _ = s.template := applyOp_template s op

lemma applyOps_heap_extend (ops : List BuilderOp) :
    ∀ s : BuilderState, ∃ ext, (applyOps s ops).heap = s.heap ++ ext := by
  induction ops with
  | nil => intro s; exact ⟨[], (List.append_nil _).symm⟩
  | cons op rest ih =>
    intro s
    obtain ⟨e1, h1⟩ := applyOp_heap_extend s op
    obtain ⟨e2, h2⟩ := ih (applyOp s op)
    exact ⟨e1 ++ e2, by rw [show applyOps s (op :: rest) = applyOps (applyOp s op) rest from rfl, h2, h1, List.append_assoc]⟩

lemma heapAttrs_append (h : AttrsHeap) (ext : AttrsHeap) (r : Nat)
    (hr : r < h.length) : heapAttrs (h ++ ext) r = heapAttrs h r := by
  simp [heapAttrs, List.getD, List.getElem?_append_left hr]

/-- Claim C3: for every template and every chain of builder setter calls
starting from `ConfigureIcon`, the template record and the attribute map it
references are unchanged after the chain: the builder never mutates the
original. -/
theorem builder_never_mutates_template (heap : AttrsHeap)
    (template : IconRef) (ops : List BuilderOp)
    (href : template.attrsRef < heap.length) :
    (applyOps (ConfigureIcon heap template) ops).template = template ∧
      heapAttrs (applyOps (ConfigureIcon heap template) ops).heap
          template.attrsRef =
        heapAttrs heap template.attrsRef := by
  constructor
  · exact applyOps_template ops (ConfigureIcon heap template)
  · obtain ⟨ext, hext⟩ := applyOps_heap_extend ops (ConfigureIcon heap template)
    rw [show (ConfigureIcon heap template).heap = heap from rfl] at hext
    rw [hext, heapAttrs_append heap ext template.attrsRef href]

/-- Claim C3 witness: the `"moon"` template and its attribute map are
untouched by a chain exercising every setter. -/
theorem builder_never_mutates_template_witness :
    (applyOps (ConfigureIcon demoHeap moonRef) demoOps).template = moonRef ∧
      heapAttrs (applyOps (ConfigureIcon demoHeap moonRef) demoOps).heap
          moonRef.attrsRef =
        heapAttrs demoHeap moonRef.attrsRef :=
  builder_never_mutates_template demoHeap moonRef demoOps (by decide)

lemma ensureDefaults_fill_ne (i : Icon) : i.ensureDefaults.fill ≠ "" := by
  unfold Icon.ensureDefaults ensureStrokeWidth ensureStroke ensureFill
  repeat' split
  all_goals simp_all

lemma ensureDefaults_stroke_ne (i : Icon) : i.ensureDefaults.stroke ≠ "" := by
  unfold Icon.ensureDefaults ensureStrokeWidth ensureStroke ensureFill
  repeat' split
  all_goals simp_all

lemma ensureDefaults_strokeWidth_ne (i : Icon) :
    i.ensureDefaults.strokeWidth ≠ "" := by
  unfold Icon.ensureDefaults ensureStrokeWidth ensureStroke ensureFill
  repeat' split
  all_goals simp_all

lemma ensureDefaults_of_filled (i : Icon) (h1 : i.fill ≠ "")
    (h2 : i.stroke ≠ "") (h3 : i.strokeWidth ≠ "") : i.ensureDefaults = i := by
  unfold Icon.ensureDefaults ensureStrokeWidth ensureStroke ensureFill
  rw [if_neg h1, if_neg h2, if_neg h3]

lemma ensureDefaults_idem (i : Icon) :
    i.ensureDefaults.ensureDefaults = i.ensureDefaults :=
  ensureDefaults_of_filled _ (ensureDefaults_fill_ne i)
    (ensureDefaults_stroke_ne i) (ensureDefaults_strokeWidth_ne i)

/-- A second `Icon.String` call on the icon mutated by a first call returns
the same pair: the defaulted fields and the cached body are stable. -/
lemma iconStringS_stable (ds : Dataset) (i : Icon) :
    iconStringS ds (iconStringS ds i).2 = iconStringS ds i := by
  by_cases hb : i.ensureDefaults.body = ""
  · cases hlk : List.lookup i.ensureDefaults.name ds with
    | none =>
      have h1 : iconStringS ds i =
          (errorSVGComment (notFoundMsg i.ensureDefaults.name),
            i.ensureDefaults) := by
        unfold iconStringS
        rw [if_pos hb, hlk]
      rw [h1]
      unfold iconStringS
      rw [ensureDefaults_idem, if_pos hb, hlk]
    | some b =>
      have h1 : iconStringS ds i =
          (svgOutput { i.ensureDefaults with body := b } b,
            { i.ensureDefaults with body := b }) := by
        unfold iconStringS
        rw [if_pos hb, hlk]
      have hidem : ({ i.ensureDefaults with body := b } : Icon).ensureDefaults
          = { i.ensureDefaults with body := b } :=
        ensureDefaults_of_filled _ (ensureDefaults_fill_ne i)
          (ensureDefaults_stroke_ne i) (ensureDefaults_strokeWidth_ne i)
      rw [h1]
      by_cases hb2 : b = ""
      · subst hb2
        unfold iconStringS
        rw [hidem, if_pos rfl]
        rw [show ({ i.ensureDefaults with body := "" } : Icon).name =
          i.ensureDefaults.name from rfl, hlk]
      · unfold iconStringS
        rw [hidem, if_neg hb2]
  · have h1 : iconStringS ds i =
        (svgOutput i.ensureDefaults i.ensureDefaults.body,
          i.ensureDefaults) := by
      unfold iconStringS
      rw [if_neg hb]
    rw [h1]
    unfold iconStringS
    rw [ensureDefaults_idem, if_neg hb]

/-- Claim C4 counterexample: `Build` returns a pointer into the builder
(`return &b.icon`), so a `SetSize(99)` after `Build` changes the record the
earlier `Build` returned — its observed size flips from `"32"` to `"99"`. -/
theorem build_isolation_counterexample :
    (readBuilt (applyOp (applyOps (ConfigureIcon demoHeap moonRef)
        [BuilderOp.setSize 32]) (BuilderOp.setSize 99))).size = "99" ∧
      (readBuilt (applyOps (ConfigureIcon demoHeap moonRef)
        [BuilderOp.setSize 32])).size = "32" ∧
      readBuilt (applyOp (applyOps (ConfigureIcon demoHeap moonRef)
          [BuilderOp.setSize 32]) (BuilderOp.setSize 99)) ≠
        readBuilt (applyOps (ConfigureIcon demoHeap moonRef)
          [BuilderOp.setSize 32]) := by
  refine ⟨rfl, rfl, ?_⟩
  decide

/-- Claim C4 (amended): rendering the record returned by `Build` twice
yields byte-identical output (the mutating `String` method is stable), but
the record a `Build` call returns aliases the builder's internal icon, so
after any further setter call it equals the builder's new record rather
than its value at build time. -/
theorem build_render_idempotent (ds : Dataset) (h : AttrsHeap)
    (t : IconRef) (ops : List BuilderOp) :
    (iconStringS ds (iconStringS ds (iconOfRef
        (applyOps (ConfigureIcon h t) ops).heap
        (readBuilt (applyOps (ConfigureIcon h t) ops)))).2).1 =
      (iconStringS ds (iconOfRef (applyOps (ConfigureIcon h t) ops).heap
        (readBuilt (applyOps (ConfigureIcon h t) ops)))).1 ∧
      ∀ op, readBuilt (applyOp (applyOps (ConfigureIcon h t) ops) op) =
        (applyOp (applyOps (ConfigureIcon h t) ops) op).builder :=
  ⟨congrArg Prod.fst (iconStringS_stable ds _), fun _ => rfl⟩

lemma joinAll_singleton (s : String) : joinAll [s] = s := by
  simp [joinAll]

/-- Claim C5: a reserved key supplied through the attribute map is skipped
by the attribute-emission step regardless of its value, and concretely
`SetAttrs({"aria-hidden":"true","fill":"red"})` on the Outline `"moon"`
record keeps the built-in `fill="none"` while emitting
`aria-hidden="true"`. -/
theorem reserved_attrs_never_override (k v : String) (attrs : Attrs)
    (hk : k ∈ reservedSVGAttributes) (hnd : k ∉ attrs.map Prod.fst) :
    addAttributesToSVG ((k, AttrValue.str v) :: attrs) =
        addAttributesToSVG attrs ∧
      iconString [] (moonTemplate.SetAttrs
          [("aria-hidden", AttrValue.str "true"),
            ("fill", AttrValue.str "red")]) =
        "<svg xmlns=\"http://www.w3.org/2000/svg\" width=\"24\" height=\"24\" viewBox=\"0 0 24 24\" fill=\"none\" stroke-width=\"1.5\" stroke=\"currentColor\" aria-hidden=\"true\"><path d=\"M1\"/></svg>" := by
  constructor
  · apply addAttributesToSVG_skip k (AttrValue.str v) attrs hnd
    simp [emitAttr, List.lookup, hk]
  · rfl

/-- Claim C5 witness: the reserved key `fill` with value `red` is dropped
alongside a kept `aria-hidden` attribute. -/
theorem reserved_attrs_never_override_witness :
    (addAttributesToSVG [("fill", AttrValue.str "red"),
          ("aria-hidden", AttrValue.str "true")] =
        addAttributesToSVG [("aria-hidden", AttrValue.str "true")]) ∧
      iconString [] (moonTemplate.SetAttrs
          [("aria-hidden", AttrValue.str "true"),
            ("fill", AttrValue.str "red")]) =
        "<svg xmlns=\"http://www.w3.org/2000/svg\" width=\"24\" height=\"24\" viewBox=\"0 0 24 24\" fill=\"none\" stroke-width=\"1.5\" stroke=\"currentColor\" aria-hidden=\"true\"><path d=\"M1\"/></svg>" :=
  reserved_attrs_never_override "fill" "red"
    [("aria-hidden", AttrValue.str "true")] (by decide) (by decide)

/-- Claim C6: an allowlisted event attribute whose value contains a script
tag or script-URI marker (case-insensitively) is dropped entirely from the
emission, while a non-event, non-reserved attribute with the same value is
emitted with its key and value HTML-entity-escaped. -/
theorem event_attr_sanitization (k v k2 : String) (attrs : Attrs)
    (hk : k ∈ allowedEventAttributes) (hm : hasUnsafeValue v = true)
    (hnd : k ∉ attrs.map Prod.fst)
    (hk2e : k2 ∉ allowedEventAttributes)
    (hk2r : k2 ∉ reservedSVGAttributes) :
    addAttributesToSVG ((k, AttrValue.str v) :: attrs) =
        addAttributesToSVG attrs ∧
      addAttributesToSVG [(k2, AttrValue.str v)] =
        " " ++ escapeString k2 ++ "=\"" ++ escapeString v ++ "\"" := by
  have hkr : k ∉ reservedSVGAttributes := by
    simp only [allowedEventAttributes, List.mem_cons,
      List.not_mem_nil, or_false] at hk
    rcases hk with rfl | rfl | rfl <;> decide
  constructor
  · apply addAttributesToSVG_skip k (AttrValue.str v) attrs hnd
    simp [emitAttr, List.lookup, sanitizeAttribute, hk, hm, hkr]
  · simp [addAttributesToSVG, sortKeys, insertKey, emitAttr, List.lookup,
      sanitizeAttribute, hk2r, hk2e, joinAll_singleton]

/-- Claim C6 witness: `onclick` with a `javascript:` value is dropped while
`data-info` with the same value is kept escaped. -/
theorem event_attr_sanitization_witness :
    (addAttributesToSVG [("onclick", AttrValue.str "javascript:doEvil()")] =
        addAttributesToSVG []) ∧
      addAttributesToSVG [("data-info", AttrValue.str "javascript:doEvil()")] =
        " " ++ escapeString "data-info" ++ "=\"" ++
          escapeString "javascript:doEvil()" ++ "\"" :=
  event_attr_sanitization "onclick" "javascript:doEvil()" "data-info" []
    (by decide) (by decide) (by decide) (by decide) (by decide)

lemma isPrefixOf_append_self :
    ∀ l1 l2 : List Char, l1.isPrefixOf (l1 ++ l2) = true := by
  intro l1
  induction l1 with
  | nil => intro l2; simp [List.isPrefixOf]
  | cons a as ih => intro l2; simp [List.isPrefixOf, ih]

/-- A string whose character data contains the pattern's data as a
contiguous segment is found by `containsSubstring`. -/
lemma containsSubstring_of_data (s pat : String) (pre suf : List Char)
    (h : s.data = pre ++ (pat.data ++ suf)) :
    containsSubstring s pat = true := by
  unfold containsSubstring
  rw [List.any_eq_true]
  refine ⟨pat.data ++ suf, ?_, isPrefixOf_append_self _ _⟩
  rw [List.mem_tails]
  exact ⟨pre, h.symm⟩

lemma getIconBodyS_of_parsed (src : DataSource) (st : CacheState)
    (name : String) (hp : st.parsed = true) :
    (getIconBodyS src st name).2 = st ∧
      (getIconBodyS src st name).1 =
        (match List.lookup name st.iconData with
         | some b => Except.ok b
         | none => Except.error (notFoundMsg name)) := by
  constructor
  · simp only [getIconBodyS, hp, if_true]
    cases List.lookup name st.iconData <;> rfl
  · simp only [getIconBodyS, hp, if_true]
    cases List.lookup name st.iconData <;> rfl

lemma getIconBodyS_initial (src : DataSource) (m : Dataset) (name : String)
    (hsrc : src.raw = some m) :
    (getIconBodyS src initialCache name).2 =
      { parsed := true, decodes := 1, iconData := m } := by
  simp only [getIconBodyS, initialCache, hsrc]
  cases h : List.lookup name m <;> simp [h]

lemma runCalls_of_parsed (src : DataSource) (names : List String) :
    ∀ st : CacheState, st.parsed = true → runCalls src st names = st := by
  induction names with
  | nil => intro st _; rfl
  | cons n ns ih =>
    intro st hp
    have h1 : runCalls src st (n :: ns) =
        runCalls src (getIconBodyS src st n).2 ns := rfl
    rw [h1, (getIconBodyS_of_parsed src st n hp).1]
    exact ih st hp

/-- Claim C7: resolving an empty or unknown name yields a `NotFound` error
whose message carries the requested name, and rendering a record with that
name produces the comment-style diagnostic fragment containing the name
instead of escalating the failure. -/
theorem notFound_renders_comment (ds : Dataset) (name : String) (i : Icon)
    (hlk : List.lookup name ds = none) (hname : i.name = name)
    (hbody : i.body = "") :
    (getIconBodyS ⟨some ds⟩ initialCache name).1 =
        Except.error (notFoundMsg name) ∧
      iconString ds i = errorSVGComment (notFoundMsg name) ∧
      containsSubstring (errorSVGComment (notFoundMsg name)) name = true := by
  refine ⟨?_, ?_, ?_⟩
  · simp [getIconBodyS, initialCache, hlk]
  · have h1 : i.ensureDefaults.body = "" := by
      rw [ensureDefaults_body, hbody]
    have h2 : i.ensureDefaults.name = name := by
      rw [ensureDefaults_name, hname]
    simp [iconString, iconStringS, h1, h2, hlk]
  · apply containsSubstring_of_data _ _ ("<!-- Error: icon '").data
      ("' not found -->").data
    simp [errorSVGComment, notFoundMsg]

/-- Claim C7 witness: the name `"nonexistent"` produces the `NotFound` error
and the diagnostic comment containing the name. -/
theorem notFound_renders_comment_witness :
    (getIconBodyS ⟨some sampleDataset⟩ initialCache "nonexistent").1 =
        Except.error (notFoundMsg "nonexistent") ∧
      iconString sampleDataset missingIcon =
        errorSVGComment (notFoundMsg "nonexistent") ∧
      containsSubstring (errorSVGComment (notFoundMsg "nonexistent"))
          "nonexistent" = true :=
  notFound_renders_comment sampleDataset "nonexistent" missingIcon
    (by decide) (by decide) (by decide)

/-- Claim C8: with a decodable bundled dataset, the first resolution call —
whatever the requested name — decodes the blob once and fills the cache
with every entry of the dataset; any call from an already-parsed state
leaves the state untouched and answers from the cache; and any sequence of
calls from process start decodes the dataset at most once. -/
theorem cache_single_parse (src : DataSource) (m : Dataset)
    (hsrc : src.raw = some m) :
    (∀ name, (getIconBodyS src initialCache name).2 =
        { parsed := true, decodes := 1, iconData := m }) ∧
      (∀ (st : CacheState) (name : String), st.parsed = true →
        (getIconBodyS src st name).2 = st ∧
          (getIconBodyS src st name).1 =
            (match List.lookup name st.iconData with
             | some b => Except.ok b
             | none => Except.error (notFoundMsg name))) ∧
      ∀ names, (runCalls src initialCache names).decodes ≤ 1 := by
  refine ⟨fun name => getIconBodyS_initial src m name hsrc, ?_, ?_⟩
  · intro st name hp
    exact getIconBodyS_of_parsed src st name hp
  · intro names
    cases names with
    | nil => exact Nat.zero_le 1
    | cons n ns =>
      have h1 : runCalls src initialCache (n :: ns) =
          runCalls src (getIconBodyS src initialCache n).2 ns := rfl
      rw [h1, getIconBodyS_initial src m n hsrc,
        runCalls_of_parsed src ns _ rfl]

/-- Claim C8 witness: from process start against the sample dataset, the
first call fills the cache with all entries, parsed states are fixed, and
any call sequence decodes at most once. -/
theorem cache_single_parse_witness :
    (∀ name, (getIconBodyS ⟨some sampleDataset⟩ initialCache name).2 =
        { parsed := true, decodes := 1, iconData := sampleDataset }) ∧
      (∀ (st : CacheState) (name : String), st.parsed = true →
        (getIconBodyS ⟨some sampleDataset⟩ st name).2 = st ∧
          (getIconBodyS ⟨some sampleDataset⟩ st name).1 =
            (match List.lookup name st.iconData with
             | some b => Except.ok b
             | none => Except.error (notFoundMsg name))) ∧
      ∀ names,
        (runCalls ⟨some sampleDataset⟩ initialCache names).decodes ≤ 1 :=
  cache_single_parse ⟨some sampleDataset⟩ sampleDataset rfl

/-- Claim C9 counterexample: the `Icon.String` renderer of `icon.go` does
apply default visual attributes to an unknown variant — its fallback branch
emits `fill`, `stroke-width` and `stroke` with the ensured defaults, as the
repository's own fallback test expects — contradicting the claim that
rendering a record whose variant is outside Outline/Solid/Mini/Micro
applies no fill, stroke or stroke-width defaults. -/
theorem unknown_variant_defaults_counterexample :
    iconString [] unknownIcon =
        "<svg xmlns=\"http://www.w3.org/2000/svg\" width=\"24\" height=\"24\" viewBox=\"0 0 24 24\" fill=\"currentColor\" stroke-width=\"1.5\" stroke=\"currentColor\"><circle cx=\"12\" cy=\"12\" r=\"10\"/></svg>" ∧
      containsSubstring (iconString [] unknownIcon) "stroke-width" = true ∧
      containsSubstring (iconString [] unknownIcon) "fill=" = true := by
  refine ⟨rfl, ?_, ?_⟩ <;> decide

/-- For a variant outside Outline/Solid/Mini/Micro with no color and no
extra attributes, the tail of the `makeSVGTag` opening tag is just the
`viewBox` (dimension 24) and the closing `>`. -/
lemma makeSVGTagRest_unknown (icon : IconC)
    (h1 : icon.type ≠ "Outline") (h2 : icon.type ≠ "Solid")
    (h3 : icon.type ≠ "Micro") (h4 : icon.type ≠ "Mini")
    (hc : icon.color = "") (ha : icon.attrs = []) :
    makeSVGTagRest icon = "\" viewBox=\"0 0 24 24\">" := by
  simp [makeSVGTagRest, getViewBoxDimensions, getTypeAttributes,
    addAttributesToSVG, h1, h2, h3, h4, hc, ha]

/-- Claim C9 (amended): the `makeSVGTag` renderer (`helpers.go`
`getTypeAttributes`) applies no default visual attributes to a variant
outside Outline/Solid/Mini/Micro — only the namespace, width, height and
`viewBox` are emitted — whereas the `Icon.String` renderer of `icon.go`
falls through to a branch that emits `fill`, `stroke-width` and `stroke`
for such variants (see the counterexample). -/
theorem unknown_variant_no_type_attrs (ds : Dataset) (icon : IconC)
    (h1 : icon.type ≠ "Outline") (h2 : icon.type ≠ "Solid")
    (h3 : icon.type ≠ "Micro") (h4 : icon.type ≠ "Mini")
    (hc : icon.color = "") (ha : icon.attrs = []) (hb : icon.body ≠ "") :
    getTypeAttributes icon.type = "" ∧
      makeSVGTag ds icon =
        "<svg xmlns=\"http://www.w3.org/2000/svg\" width=\"" ++ icon.size ++
          "\" height=\"" ++ icon.size ++ "\" viewBox=\"0 0 24 24\">" ++
          icon.body ++ "</svg>" := by
  constructor
  · simp [getTypeAttributes, h1, h2, h3, h4]
  · unfold makeSVGTag
    rw [if_neg hb]
    rw [makeSVGTagRest_unknown icon h1 h2 h3 h4 hc ha]

/-- Claim C9 amended witness: the unknown-variant record renders through
`makeSVGTag` with no visual attributes, exactly as the repository's
fallback test for `makeSVGTag` expects. -/
theorem unknown_variant_no_type_attrs_witness :
    getTypeAttributes unknownIconC.type = "" ∧
      makeSVGTag [] unknownIconC =
        "<svg xmlns=\"http://www.w3.org/2000/svg\" width=\"" ++
          unknownIconC.size ++ "\" height=\"" ++ unknownIconC.size ++
          "\" viewBox=\"0 0 24 24\">" ++ unknownIconC.body ++ "</svg>" :=
  unknown_variant_no_type_attrs [] unknownIconC (by decide) (by decide)
    (by decide) (by decide) (by decide) (by decide) (by decide)

lemma ensureDefaults_stroke_eq (i : Icon) :
    i.ensureDefaults.stroke =
      (if i.stroke = "" then "currentColor" else i.stroke) := by
  unfold Icon.ensureDefaults ensureStrokeWidth ensureStroke ensureFill
  repeat' split
  all_goals simp_all

lemma ensureDefaults_strokeWidth_eq (i : Icon) :
    i.ensureDefaults.strokeWidth =
      (if i.strokeWidth = "" then "1.5" else i.strokeWidth) := by
  unfold Icon.ensureDefaults ensureStrokeWidth ensureStroke ensureFill
  repeat' split
  all_goals simp_all

lemma typeSwitchAttrs_outline_eq (j : Icon) (h : j.type = "Outline") :
    typeSwitchAttrs j =
      " fill=\"none\" stroke-width=\"" ++ j.strokeWidth ++ "\" stroke=\"" ++
        j.stroke ++ "\"" := by
  simp [typeSwitchAttrs, h]

/-- Claim C10: on an Outline icon, `SetFill` updates the `Fill` field, yet
the rendered output is unchanged and always carries the hard-coded
`fill="none"` of the Outline branch of `Icon.String`. -/
theorem outline_fill_hardcoded (ds : Dataset) (i : Icon) (v : String)
    (hty : i.type = "Outline") (hb : i.body ≠ "") :
    (i.SetFill v).fill = v ∧
      iconString ds (i.SetFill v) = iconString ds i ∧
      ∃ pre post, iconString ds i = pre ++ " fill=\"none\"" ++ post := by
  have htyv : (i.SetFill v).type = i.type := rfl
  have hts : typeSwitchAttrs (i.SetFill v).ensureDefaults =
      typeSwitchAttrs i.ensureDefaults := by
    rw [typeSwitchAttrs_outline_eq _ (by rw [ensureDefaults_type, htyv]; exact hty),
      typeSwitchAttrs_outline_eq _ (by rw [ensureDefaults_type]; exact hty),
      ensureDefaults_strokeWidth_eq, ensureDefaults_strokeWidth_eq,
      ensureDefaults_stroke_eq, ensureDefaults_stroke_eq]
    rfl
  refine ⟨rfl, ?_, ?_⟩
  · rw [iconString_decomp ds (i.SetFill v) hb, iconString_decomp ds i hb,
      hts]
    rfl
  · refine ⟨"<svg xmlns=\"http://www.w3.org/2000/svg\" width=\"" ++ i.size ++
      "\" height=\"" ++ i.size ++ "\" viewBox=\"0 0 " ++ getViewBox i.type ++
      " " ++ getViewBox i.type ++ "\"",
      " stroke-width=\"" ++ i.ensureDefaults.strokeWidth ++ "\" stroke=\"" ++
        i.ensureDefaults.stroke ++ "\"" ++ addAttributesToSVG i.attrs ++
        ">" ++ i.body ++ "</svg>", ?_⟩
    rw [iconString_decomp ds i hb,
      typeSwitchAttrs_outline_eq _ (by rw [ensureDefaults_type]; exact hty)]
    rw [show (" fill=\"none\" stroke-width=\"" : String) =
      " fill=\"none\"" ++ " stroke-width=\"" from rfl]
    simp only [String.append_assoc]

/-- Claim C10 witness: `SetFill "red"` on the Outline `"moon"` record leaves
the rendered output unchanged with `fill="none"` in it, while the field
itself holds `"red"`. -/
theorem outline_fill_hardcoded_witness :
    (moonTemplate.SetFill "red").fill = "red" ∧
      iconString [] (moonTemplate.SetFill "red") =
        iconString [] moonTemplate ∧
      ∃ pre post,
        iconString [] moonTemplate = pre ++ " fill=\"none\"" ++ post :=
  outline_fill_hardcoded [] moonTemplate "red" (by decide) (by decide)

end Templheroicons

